import Mathlib

/-!
Verification development for the Selector-doc repository: a PDF
UI-component annotator.  We give a shallow embedding of the core of the
program — the in-memory store (`src/hooks/use-annotations.ts`), the
coordinate normalizer and overlay renderer
(`src/components/annotation-list.tsx`) and the export pipeline
(`src/lib/pdf-export.ts`) — and prove or refute the specification's
claims about it.

Conventions of this embedding:
* The domain entity `Annotation` of `src/types/annotation.ts` is embedded
  as `Annot` (and its state record as `AnnotState`, the store operations
  as `createAnnot` / `updateAnnot` / `deleteAnnot`); the fields keep the
  source's names except that `selectedAnnotation` / `editingAnnotation`
  are shortened to `selected` / `editing`.
* Pixel and fractional coordinates (JS `number`s used exactly here) are
  embedded as `ℚ`; timestamps (`Date` values, compared only for identity)
  as `Nat`; `pageNumber` as `Int`.
* Optional TS fields become `Option`; JS string truthiness (`s && t`)
  becomes the test that both strings are non-empty.
-/

namespace SelectorDoc

/-- Embeds the `Annotation` interface of `src/types/annotation.ts`:
fractional rectangle fields `x y width height`, a `pageNumber`, the
metadata strings and the two timestamps. -/
structure Annot where
  id : String
  x : ℚ
  y : ℚ
  width : ℚ
  height : ℚ
  pageNumber : Int
  componentLabel : String
  cssSelector : String
  description : Option String
  createdAt : Nat
  updatedAt : Nat
deriving DecidableEq

/-- Embeds `AnnotationFormData` of `src/types/annotation.ts`: the fields
an update may replace.  The editor always supplies all three keys, so the
object spread `{...a, ...d}` replaces all three. -/
structure AnnotFormData where
  componentLabel : String
  cssSelector : String
  description : Option String
deriving DecidableEq

/-- Embeds `AnnotationState` of `src/types/annotation.ts` (the store's
state record in `use-annotations.ts`).  `selected` / `editing` embed the
source's `selectedAnnotation` / `editingAnnotation` fields. -/
structure AnnotState where
  anns : List Annot
  selected : Option Annot
  isCreating : Bool
  editing : Option Annot
deriving DecidableEq

/-- The object spread `{ ...annotation, ...data, updatedAt: new Date() }`
performed by `updateAnnotation` (use-annotations.ts lines 44-48). -/
def applyForm (a : Annot) (d : AnnotFormData) (now : Nat) : Annot :=
  { a with
    componentLabel := d.componentLabel
    cssSelector := d.cssSelector
    description := d.description
    updatedAt := now }

/-- Embeds `createAnnotation` (use-annotations.ts lines 18-37) applied to
an already-built new entity `a`: appends it and makes it both selected and
the one open for editing. -/
def createAnnot (st : AnnotState) (a : Annot) : AnnotState :=
  { st with
    anns := st.anns ++ [a]
    selected := some a
    editing := some a }

/-- Embeds `updateAnnotation` (use-annotations.ts lines 39-56).  The two
`new Date()` calls of the same synchronous callback are embedded as the
single instant `now`.  Note the source sets `editingAnnotation: null`
unconditionally. -/
def updateAnnot (st : AnnotState) (i : String) (d : AnnotFormData) (now : Nat) :
    AnnotState :=
  { st with
    anns := st.anns.map fun a => if a.id = i then applyForm a d now else a
    selected :=
      match st.selected with
      | some s => if s.id = i then some (applyForm s d now) else some s
      | none => none
    editing := none }

/-- Embeds `deleteAnnotation` (use-annotations.ts lines 58-65). -/
def deleteAnnot (st : AnnotState) (i : String) : AnnotState :=
  { st with
    anns := st.anns.filter fun a => a.id != i
    selected :=
      match st.selected with
      | some s => if s.id = i then none else some s
      | none => none
    editing :=
      match st.editing with
      | some e => if e.id = i then none else some e
      | none => none }

/-- The stats record returned by `getAnnotationStats`. -/
structure Stats where
  total : Nat
  completed : Nat
  incomplete : Nat
  pages : Nat
deriving DecidableEq

/-- JS truthiness test `annotation.componentLabel && annotation.cssSelector`
(use-annotations.ts line 105): both strings non-empty. -/
def isCompleted (a : Annot) : Bool :=
  a.componentLabel != "" && a.cssSelector != ""

/-- Embeds `getAnnotationStats` (use-annotations.ts lines 102-110):
`total` is the list length, `completed` counts entries passing
`isCompleted`, `pages` is the size of the `Set` of page numbers
(embedded as the length of the deduplicated list). -/
def getAnnotStats (anns : List Annot) : Stats :=
  let total := anns.length
  let completed := (anns.filter isCompleted).length
  let pages := (anns.map fun a => a.pageNumber).dedup.length
  { total := total
    completed := completed
    incomplete := total - completed
    pages := pages }

/-! ### Concrete sample data used by counterexamples and witnesses -/

/-- A sample stored entity with empty label and selector. -/
def annotA : Annot :=
  { id := "a1", x := 0, y := 0, width := 1/2, height := 1/2, pageNumber := 1,
    componentLabel := "", cssSelector := "", description := none,
    createdAt := 0, updatedAt := 0 }

/-- A sample store state whose `editing` pointer is set while the store
holds no entity at all. -/
def st0 : AnnotState :=
  { anns := [], selected := none, isCreating := false, editing := some annotA }

/-- A sample form payload. -/
def d0 : AnnotFormData :=
  { componentLabel := "Login Button", cssSelector := "#login-btn",
    description := none }

/-! ### Claims about the store -/

/-- C6: for every store contents (hence for every reachable state under
any sequence of creates, updates and deletes), `getAnnotStats` satisfies
`completed + incomplete = total`, `pages` equals the number of distinct
page numbers present, and `completed` counts exactly the entries whose
label and selector are both non-empty. -/
theorem stats_consistent (anns : List Annot) :
    (getAnnotStats anns).completed + (getAnnotStats anns).incomplete
        = (getAnnotStats anns).total
    ∧ (getAnnotStats anns).pages = (anns.map fun a => a.pageNumber).toFinset.card
    ∧ (getAnnotStats anns).completed
        = (anns.filter fun a => a.componentLabel != "" && a.cssSelector != "").length := by
  refine ⟨?_, ?_, rfl⟩
  · have h : (anns.filter isCompleted).length ≤ anns.length :=
      List.length_filter_le _ _
    simpa [getAnnotStats] using Nat.add_sub_cancel' h
  · simp [getAnnotStats, List.card_toFinset]

/-- C9: every `updateAnnot` call — matching id or not, editing target or
not — leaves `editing` cleared to `none` in the resulting state
(use-annotations.ts line 54 sets `editingAnnotation: null`
unconditionally). -/
theorem update_clears_editing (st : AnnotState) (i : String) (d : AnnotFormData)
    (now : Nat) : (updateAnnot st i d now).editing = none := rfl

/-- C3 counterexample: in the state `st0` the id `"zz"` matches no stored
entity, yet `updateAnnot` changes the state — it clears the `editing`
pointer — so the update is not a no-op on the entire store state. -/
theorem update_miss_not_noop :
    (∀ a ∈ st0.anns, a.id ≠ "zz") ∧ updateAnnot st0 "zz" d0 5 ≠ st0 := by
  constructor
  · intro a ha
    simp [st0] at ha
  · intro h
    have h2 := congrArg AnnotState.editing h
    simp [updateAnnot, st0] at h2

/-- C3 amended: `updateAnnot` is total (a Lean function, never throws).
On an id matching no stored entity it leaves `anns` unchanged; in general
it rewrites exactly the matching entries with the form fields and
`updatedAt := now`; it leaves `isCreating` unchanged; it refreshes
`selected` to the same new value when the selected entity's id matches and
leaves it alone otherwise; and it always clears `editing` to `none`. -/
theorem update_behavior (st : AnnotState) (i : String) (d : AnnotFormData)
    (now : Nat) :
    ((∀ a ∈ st.anns, a.id ≠ i) → (updateAnnot st i d now).anns = st.anns)
    ∧ (updateAnnot st i d now).anns
        = st.anns.map (fun a => if a.id = i then applyForm a d now else a)
    ∧ (updateAnnot st i d now).isCreating = st.isCreating
    ∧ (st.selected = none → (updateAnnot st i d now).selected = none)
    ∧ (∀ s, st.selected = some s → s.id = i →
        (updateAnnot st i d now).selected = some (applyForm s d now))
    ∧ (∀ s, st.selected = some s → s.id ≠ i →
        (updateAnnot st i d now).selected = some s)
    ∧ (updateAnnot st i d now).editing = none := by
  refine ⟨?_, rfl, rfl, ?_, ?_, ?_, rfl⟩
  · intro h
    have h1 : st.anns.map (fun a => if a.id = i then applyForm a d now else a)
        = st.anns.map id := by
      apply List.map_congr_left
      intro a ha
      simp [h a ha]
    simpa [updateAnnot] using h1
  · intro h
    simp [updateAnnot, h]
  · intro s hs hsi
    simp [updateAnnot, hs, hsi]
  · intro s hs hsi
    simp [updateAnnot, hs, hsi]

/-- Witness for `update_behavior`: instantiated at the concrete state
`st0`, the unmatched id `"zz"` and the empty selection. -/
theorem update_behavior_witness :
    (updateAnnot st0 "zz" d0 5).anns = st0.anns
    ∧ (updateAnnot st0 "zz" d0 5).selected = none := by
  have h := update_behavior st0 "zz" d0 5
  refine ⟨h.1 ?_, h.2.2.2.1 ?_⟩
  · intro a ha
    simp [st0] at ha
  · rfl

/-! ### Coordinate normalizer (`src/components/annotation-list.tsx`) -/

/-- The in-flight drag rectangle state (`creatingRect`) of
annotation-list.tsx: pixel coordinates relative to the page surface. -/
structure CreatingRect where
  startX : ℚ
  startY : ℚ
  currentX : ℚ
  currentY : ℚ
deriving DecidableEq

/-- Embeds `PdfPageInfo` of `src/types/annotation.ts`: the rendered page
surface's pixel dimensions at the current scale. -/
structure PageInfo where
  pageNumber : Int
  width : ℚ
  height : ℚ
  scale : ℚ
deriving DecidableEq

/-- The entity data built by `handleMouseUp` (annotation-list.tsx lines
381-389) and handed to `onAnnotationCreate`: fractional geometry plus the
page number and initially empty metadata strings. -/
structure NewAnnotData where
  x : ℚ
  y : ℚ
  width : ℚ
  height : ℚ
  pageNumber : Int
  componentLabel : String
  cssSelector : String
deriving DecidableEq

/-- Embeds `getRelativeCoordinates` (annotation-list.tsx lines 329-337):
the raw offsets `clientX - rect.left` and `clientY - rect.top`, with no
clamping of any kind. -/
def getRelativeCoordinates (clientX clientY rectLeft rectTop : ℚ) : ℚ × ℚ :=
  (clientX - rectLeft, clientY - rectTop)

/-- Embeds `handleMouseUp` (annotation-list.tsx lines 366-394): rejects
the gesture (creates nothing) when its pixel width or height is below 20,
otherwise creates exactly one entity whose rectangle is the min-corner and
absolute-size pixel rectangle divided by the page surface's pixel
dimensions. -/
def handleMouseUp (r : CreatingRect) (p : PageInfo) : Option NewAnnotData :=
  let width := |r.currentX - r.startX|
  let height := |r.currentY - r.startY|
  if width < 20 ∨ height < 20 then
    none
  else
    let x := min r.startX r.currentX
    let y := min r.startY r.currentY
    some
      { x := x / p.width
        y := y / p.height
        width := width / p.width
        height := height / p.height
        pageNumber := p.pageNumber
        componentLabel := ""
        cssSelector := "" }

/-- The rendered page of the worked scenario: a 1000×800 pixel surface. -/
def page1000x800 : PageInfo :=
  { pageNumber := 1, width := 1000, height := 800, scale := 3/2 }

/-- C4: a gesture under 20px in either pixel dimension creates zero
entities; a gesture of at least 20px in both (in particular exactly
20×20) creates exactly one, whose stored rectangle is
`(min start current)/pageDim` and `|current - start|/pageDim`; and the
worked scenario — drag `(100,100)-(300,200)` on a 1000×800 page — stores
the fractions `x = 1/10, y = 1/8, width = 1/5, height = 1/8`, i.e.
`{0.1, 0.125, 0.2, 0.125}`. -/
theorem mouseUp_spec (r : CreatingRect) (p : PageInfo) :
    ((|r.currentX - r.startX| < 20 ∨ |r.currentY - r.startY| < 20) →
        handleMouseUp r p = none)
    ∧ (20 ≤ |r.currentX - r.startX| → 20 ≤ |r.currentY - r.startY| →
        handleMouseUp r p = some
          { x := min r.startX r.currentX / p.width
            y := min r.startY r.currentY / p.height
            width := |r.currentX - r.startX| / p.width
            height := |r.currentY - r.startY| / p.height
            pageNumber := p.pageNumber
            componentLabel := ""
            cssSelector := "" })
    ∧ handleMouseUp ⟨100, 100, 300, 200⟩ page1000x800 = some
        { x := 1/10, y := 1/8, width := 1/5, height := 1/8,
          pageNumber := 1, componentLabel := "", cssSelector := "" } := by
  refine ⟨?_, ?_, ?_⟩
  · intro h
    simp only [handleMouseUp]
    rw [if_pos h]
  · intro h1 h2
    simp only [handleMouseUp]
    rw [if_neg]
    push_neg
    exact ⟨h1, h2⟩
  · norm_num [handleMouseUp, page1000x800]

/-- Witness for `mouseUp_spec`: a 10×50 gesture is rejected and an exact
20×20 gesture creates one entity, both on the 1000×800 page. -/
theorem mouseUp_spec_witness :
    handleMouseUp ⟨0, 0, 10, 50⟩ page1000x800 = none
    ∧ handleMouseUp ⟨0, 0, 20, 20⟩ page1000x800 = some
        { x := 0, y := 0, width := 1/50, height := 1/40,
          pageNumber := 1, componentLabel := "", cssSelector := "" } := by
  constructor
  · exact (mouseUp_spec ⟨0, 0, 10, 50⟩ page1000x800).1 (Or.inl (by norm_num))
  · have h := (mouseUp_spec ⟨0, 0, 20, 20⟩ page1000x800).2.1
      (by norm_num) (by norm_num)
    rw [h]
    norm_num [page1000x800]

/-- C5 counterexample: the normalizer does not clamp.  A coordinate left
of or above the surface comes back negative rather than clamped to 0, and
the drag `(0,0)-(1200,900)` on the 1000×800 page creates an entity whose
fractional width is `6/5` and height `9/8`, both strictly greater than 1 —
outside `[0,1]`. -/
theorem coords_not_clamped_cex :
    getRelativeCoordinates (-50) (-30) 0 0 = (-50, -30)
    ∧ handleMouseUp ⟨0, 0, 1200, 900⟩ page1000x800 = some
        { x := 0, y := 0, width := 6/5, height := 9/8,
          pageNumber := 1, componentLabel := "", cssSelector := "" }
    ∧ ¬ ((6/5 : ℚ) ≤ 1) := by
  refine ⟨by norm_num [getRelativeCoordinates], ?_, by norm_num⟩
  norm_num [handleMouseUp, page1000x800]

/-- C5 amended: the normalizer does not clamp gesture coordinates to the
page bounds — `getRelativeCoordinates` returns the raw offsets
`(clientX - rect.left, clientY - rect.top)` — so a gesture extending
outside the page surface can create an entity whose fractional fields
fall outside `[0,1]` (there is a gesture and page for which the stored
width fraction exceeds 1). -/
theorem coords_unclamped (clientX clientY rectLeft rectTop : ℚ) :
    getRelativeCoordinates clientX clientY rectLeft rectTop
        = (clientX - rectLeft, clientY - rectTop)
    ∧ ∃ r p a, handleMouseUp r p = some a ∧ 1 < a.width := by
  refine ⟨rfl, ⟨0, 0, 1200, 900⟩, page1000x800, ?_⟩
  refine ⟨{ x := 0, y := 0, width := 6/5, height := 9/8,
            pageNumber := 1, componentLabel := "", cssSelector := "" }, ?_, by norm_num⟩
  norm_num [handleMouseUp, page1000x800]

/-! ### Overlay rendering and scale invariance -/

/-- A fractional rectangle, the geometric content stored on an entity. -/
structure FracRect where
  x : ℚ
  y : ℚ
  width : ℚ
  height : ℚ
deriving DecidableEq

/-- A pixel rectangle as laid out by the overlay. -/
structure PixelRect where
  left : ℚ
  top : ℚ
  width : ℚ
  height : ℚ
deriving DecidableEq

/-- Embeds the overlay style computation (annotation-list.tsx lines
548-553): each fractional field multiplied by the current page surface's
pixel dimension. -/
def renderRect (r : FracRect) (p : PageInfo) : PixelRect :=
  { left := r.x * p.width
    top := r.y * p.height
    width := r.width * p.width
    height := r.height * p.height }

/-- The normalization step of `handleMouseUp` (annotation-list.tsx lines
378-389) applied to an already-derived pixel rectangle: each pixel field
divided by the current page surface's pixel dimension. -/
def normalizeRect (px : PixelRect) (p : PageInfo) : FracRect :=
  { x := px.left / p.width
    y := px.top / p.height
    width := px.width / p.width
    height := px.height / p.height }

/-- C8: for any stored fractional rectangle and any page surface with
nonzero pixel dimensions (any zoom), rendering to pixels and
re-normalizing with the same dimensions reproduces the rectangle exactly
— the stored geometry is scale-invariant. -/
theorem scale_invariance (r : FracRect) (p : PageInfo)
    (hw : p.width ≠ 0) (hh : p.height ≠ 0) :
    normalizeRect (renderRect r p) p = r := by
  cases r with
  | mk x y w h =>
    simp [normalizeRect, renderRect, mul_div_assoc, div_self hw, div_self hh]

/-- Witness for `scale_invariance`: the scenario rectangle stored under a
1000×800 surface, re-rendered and re-normalized at a 500×400 surface. -/
theorem scale_invariance_witness :
    normalizeRect
        (renderRect { x := 1/10, y := 1/8, width := 1/5, height := 1/8 }
          { pageNumber := 1, width := 500, height := 400, scale := 1 })
        { pageNumber := 1, width := 500, height := 400, scale := 1 }
      = { x := 1/10, y := 1/8, width := 1/5, height := 1/8 } := by
  exact scale_invariance
    { x := 1/10, y := 1/8, width := 1/5, height := 1/8 }
    { pageNumber := 1, width := 500, height := 400, scale := 1 }
    (by norm_num) (by norm_num)

/-! ### Serializer and PDF exporter (`src/lib/pdf-export.ts`) -/

/-- JS `Math.round`: the nearest integer, ties rounded toward plus
infinity, i.e. the floor of the argument plus one half. -/
def jsRound (q : ℚ) : ℤ := ⌊q + 1/2⌋

/-- The integer-percentage position sub-object written by `exportAsJson`
(pdf-export.ts lines 569-574). -/
structure JsonPos where
  x : ℤ
  y : ℤ
  width : ℤ
  height : ℤ
deriving DecidableEq

/-- One record of the structured-data export (pdf-export.ts lines
563-577). -/
structure JsonRecord where
  id : String
  componentLabel : String
  cssSelector : String
  description : Option String
  page : Int
  position : JsonPos
  createdAt : Nat
  updatedAt : Nat
deriving DecidableEq

/-- The structured-data export payload of `exportAsJson` (pdf-export.ts
lines 556-585): the metadata block (annotation count plus the stats
spread) and one record per entity. -/
structure JsonExport where
  totalAnns : Nat
  total : Nat
  completed : Nat
  incomplete : Nat
  pages : Nat
  records : List JsonRecord
deriving DecidableEq

/-- Embeds `exportAsJson` (pdf-export.ts lines 556-585).  Positions are
`Math.round(fraction * 100)` for each of the four rectangle fields. -/
def exportAsJson (anns : List Annot) : JsonExport :=
  let s := getAnnotStats anns
  { totalAnns := anns.length
    total := s.total
    completed := s.completed
    incomplete := s.incomplete
    pages := s.pages
    records := anns.map fun a =>
      { id := a.id
        componentLabel := a.componentLabel
        cssSelector := a.cssSelector
        description := a.description
        page := a.pageNumber
        position :=
          { x := jsRound (a.x * 100)
            y := jsRound (a.y * 100)
            width := jsRound (a.width * 100)
            height := jsRound (a.height * 100) }
        createdAt := a.createdAt
        updatedAt := a.updatedAt } }

/-- One data row of the tabular export (pdf-export.ts lines 601-612),
before quote-escaping and joining.  The two locale-rendered date cells are
environment-dependent and not modelled; no claim concerns them. -/
structure CsvRow where
  componentLabel : String
  cssSelector : String
  description : String
  page : String
  xPos : String
  yPos : String
  widthPos : String
  heightPos : String
deriving DecidableEq

/-- Embeds the row construction of `exportAsCsv` (pdf-export.ts lines
601-612).  `s || ''` on a string is the identity (an empty string maps to
`''` which equals it), so the label and selector cells carry the stored
strings verbatim; positions are `Math.round(fraction * 100).toString()`. -/
def exportAsCsv (anns : List Annot) : List CsvRow :=
  anns.map fun a =>
    { componentLabel := a.componentLabel
      cssSelector := a.cssSelector
      description := a.description.getD ""
      page := toString a.pageNumber
      xPos := toString (jsRound (a.x * 100))
      yPos := toString (jsRound (a.y * 100))
      widthPos := toString (jsRound (a.width * 100))
      heightPos := toString (jsRound (a.height * 100)) }

/-- C7: for any fixed entity list, the structured-data and tabular exports
agree — the JSON `total` is the CSV row count, the JSON `completed` is the
count of CSV rows whose label and selector cells are both non-empty, each
CSV position cell is the decimal rendering of the corresponding JSON
position integer, and both equal `jsRound (fraction * 100)`. -/
theorem export_agreement (anns : List Annot) :
    (exportAsJson anns).total = (exportAsCsv anns).length
    ∧ (exportAsJson anns).completed
        = ((exportAsCsv anns).filter fun r =>
            r.componentLabel != "" && r.cssSelector != "").length
    ∧ ((exportAsJson anns).records.map fun j =>
          (toString j.position.x, toString j.position.y,
            toString j.position.width, toString j.position.height))
        = ((exportAsCsv anns).map fun r => (r.xPos, r.yPos, r.widthPos, r.heightPos))
    ∧ ((exportAsJson anns).records.map fun j => j.position)
        = (anns.map fun a =>
            { x := jsRound (a.x * 100), y := jsRound (a.y * 100),
              width := jsRound (a.width * 100),
              height := jsRound (a.height * 100) }) := by
  refine ⟨?_, ?_, ?_, ?_⟩
  · simp [exportAsJson, exportAsCsv, getAnnotStats]
  · simp only [exportAsJson, exportAsCsv, List.filter_map, List.length_map]
    simp only [getAnnotStats]
    congr 1
  · simp [exportAsJson, exportAsCsv, List.map_map, Function.comp]
  · simp [exportAsJson, List.map_map, Function.comp]

/-! ### The PDF exporter object and its metadata page -/

/-- The `PdfExporter` class (pdf-export.ts lines 14-19): its only state is
the annotations array handed to the constructor, stored without copying —
the exporter and the caller share the very same array, so a mutation of the
exporter's array is a mutation of the caller's. -/
structure PdfExporter where
  annotations : List Annot
deriving DecidableEq

/-- Embeds `createPdfExporter` (pdf-export.ts lines 644-646). -/
def createPdfExporter (anns : List Annot) : PdfExporter :=
  { annotations := anns }

/-- The comparator `(a, b) => a.pageNumber - b.pageNumber` of
pdf-export.ts line 527 as an order: ascending page number. -/
def pageLe (a b : Annot) : Prop := a.pageNumber ≤ b.pageNumber

instance : DecidableRel pageLe := fun a b =>
  inferInstanceAs (Decidable (a.pageNumber ≤ b.pageNumber))

instance : IsTotal Annot pageLe :=
  ⟨fun a b => le_total a.pageNumber b.pageNumber⟩

instance : IsTrans Annot pageLe :=
  ⟨fun _ _ _ h1 h2 => le_trans h1 h2⟩

/-- `this.annotations.sort(comparator)`: JS `Array.prototype.sort` is a
stable sort, embedded as stable insertion sort by ascending page number. -/
def sortByPage (l : List Annot) : List Annot := List.insertionSort pageLe l

/-- Embeds the effect of `addMetadataPage` (pdf-export.ts lines 491-554)
on the exporter's state: line 526 calls `this.annotations.sort(...)`,
which sorts the shared array in place; the text drawn onto the page is a
side channel with no bearing on any claim and is not modelled.  The
mutation is embedded as the state transition on the exporter (observable
through every alias of the array, including the caller's). -/
def addMetadataPage (e : PdfExporter) : PdfExporter :=
  { e with annotations := sortByPage e.annotations }

/-- A completed sample entity on page 1. -/
def annotP1 : Annot :=
  { id := "p1", x := 0, y := 0, width := 1, height := 1, pageNumber := 1,
    componentLabel := "A", cssSelector := ".a", description := none,
    createdAt := 0, updatedAt := 0 }

/-- A completed sample entity on page 2. -/
def annotP2 : Annot :=
  { id := "p2", x := 0, y := 0, width := 1, height := 1, pageNumber := 2,
    componentLabel := "B", cssSelector := ".b", description := none,
    createdAt := 0, updatedAt := 0 }

/-- C10: `addMetadataPage` replaces the exporter's annotations array by
its stable sort by ascending page number (the in-place `Array.sort` of
pdf-export.ts line 526, visible through the caller's alias created by
`createPdfExporter`): the result is sorted by `pageLe`, is a permutation
of the input, and for the caller-supplied array `[annotP2, annotP1]` the
array afterwards is `[annotP1, annotP2]` — reordered, not left
unchanged. -/
theorem addMetadataPage_reorders (e : PdfExporter) :
    (addMetadataPage e).annotations = sortByPage e.annotations
    ∧ List.Sorted pageLe (addMetadataPage e).annotations
    ∧ List.Perm (addMetadataPage e).annotations e.annotations
    ∧ (addMetadataPage (createPdfExporter [annotP2, annotP1])).annotations
        = [annotP1, annotP2]
    ∧ (addMetadataPage (createPdfExporter [annotP2, annotP1])).annotations
        ≠ [annotP2, annotP1] := by
  have h4 : (addMetadataPage (createPdfExporter [annotP2, annotP1])).annotations
      = [annotP1, annotP2] := by
    norm_num [addMetadataPage, createPdfExporter, sortByPage, pageLe,
      annotP1, annotP2]
  refine ⟨rfl, List.sorted_insertionSort pageLe e.annotations,
    List.perm_insertionSort pageLe e.annotations, h4, ?_⟩
  rw [h4]
  intro h
  have h2 := congrArg (fun l => List.map (fun a => a.id) l) h
  simp [annotP1, annotP2] at h2

/-! ### Style isolation engine (`exportAsPdf` in `src/lib/pdf-export.ts`)

The live document's style-defining elements (the node list matched by
`querySelectorAll('style, link[rel="stylesheet"]')`) are embedded as a
list of `StyleSource` values in document order; the injected temporary
sheet as the flag `tempInjected`.  The html2canvas capture, the jsPDF
assembly and `pdf.save` — the body of the `try` after the isolation —
are abstracted into a single action that either completes or throws,
embedded as the `actionErr : Option String` argument (`none` = the action
returned normally, `some msg` = it threw `msg`). -/

/-- One enumerated style source of the live document: an external
stylesheet link carrying its `disabled` flag, or an inline style element
carrying its text content. -/
inductive StyleSource where
  | link (href : String) (disabled : Bool)
  | style (content : String)
deriving DecidableEq

/-- One record pushed onto `originalStylesheets` (pdf-export.ts lines
125-129): the element's `href` when it is a link, its `textContent` when
it is an inline style — the `disabled` flag of a link is NOT captured. -/
structure SnapshotEntry where
  href : Option String
  content : Option String
deriving DecidableEq

/-- The record built for one element in `replaceAllStylesheets`
(pdf-export.ts lines 125-129). -/
def snapshotOf : StyleSource → SnapshotEntry
  | .link href _ => { href := some href, content := none }
  | .style c => { href := none, content := some c }

/-- The suppression step of `replaceAllStylesheets` (pdf-export.ts lines
131-137): a link is disabled, an inline style's content is blanked. -/
def suppress : StyleSource → StyleSource
  | .link href _ => .link href true
  | .style _ => .style ""

/-- The per-element restoration of `restoreOriginalStylesheets`
(pdf-export.ts lines 155-161): a link's `disabled` flag is set to `false`
unconditionally; an inline style is rewritten with the captured content
when one was captured. -/
def restoreOne (sn : SnapshotEntry) (cur : StyleSource) : StyleSource :=
  match cur with
  | .link href _ => .link href false
  | .style c =>
    match sn.content with
    | some c0 => .style c0
    | none => .style c

/-- The style state of the live document: the enumerated sources in
document order, and whether the temporary safe sheet is attached. -/
structure DomStyles where
  sources : List StyleSource
  tempInjected : Bool
deriving DecidableEq

/-- Embeds `replaceAllStylesheets` (pdf-export.ts lines 116-143): fills
`originalStylesheets` with one `snapshotOf` record per source, suppresses
every source, and appends the temporary safe sheet. -/
def replaceAllStylesheets (st : DomStyles) : List SnapshotEntry × DomStyles :=
  (st.sources.map snapshotOf,
    { sources := st.sources.map suppress, tempInjected := true })

/-- Embeds `restoreOriginalStylesheets` (pdf-export.ts lines 145-165):
removes the temporary sheet and applies `restoreOne` to every enumerated
element with its snapshot record. -/
def restoreOriginalStylesheets (snap : List SnapshotEntry) (st : DomStyles) :
    DomStyles :=
  { sources := List.zipWith restoreOne snap st.sources, tempInjected := false }

/-- Embeds the try/catch/finally structure of `exportAsPdf`
(pdf-export.ts lines 45-114): isolate, run the capture action (which may
throw `actionErr`), map any thrown error to the single wrapped failure
`Error('Failed to export PDF')` (lines 107-109), and restore in the
`finally` clause (lines 110-113) on both exit paths.  The result pairs
the promise outcome with the final style state. -/
def exportAsPdf (st : DomStyles) (actionErr : Option String) :
    Except String Unit × DomStyles :=
  let p := replaceAllStylesheets st
  let result : Except String Unit :=
    match actionErr with
    | none => Except.ok ()
    | some _ => Except.error "Failed to export PDF"
  (result, restoreOriginalStylesheets p.1 p.2)

/-- What one full suppress-then-restore cycle does to one source: a link
ends re-enabled whatever its initial flag; an inline style gets its
captured content back. -/
def reEnable : StyleSource → StyleSource
  | .link href _ => .link href false
  | .style c => .style c

/-- Decides whether a source cannot be damaged by the cycle: an enabled
link or any inline style. -/
def linkEnabled : StyleSource → Bool
  | .link _ d => !d
  | .style _ => true

/-- Restoring the suppressed sources against their snapshot re-enables
every link and restores every inline style's content. -/
theorem zip_restore_eq_reEnable (l : List StyleSource) :
    List.zipWith restoreOne (l.map snapshotOf) (l.map suppress)
      = l.map reEnable := by
  induction l with
  | nil => rfl
  | cons a l ih =>
    cases a with
    | link href d => simpa [snapshotOf, suppress, restoreOne, reEnable] using ih
    | style c => simpa [snapshotOf, suppress, restoreOne, reEnable] using ih

/-- A document whose single enumerated source is an already-disabled
stylesheet link (e.g. an alternate or toggled-off theme sheet). -/
def domDisabledLink : DomStyles :=
  { sources := [StyleSource.link "app.css" true], tempInjected := false }

/-- A document with one enabled link and one inline style. -/
def domHealthy : DomStyles :=
  { sources := [StyleSource.link "globals.css" false, StyleSource.style "body"],
    tempInjected := false }

/-- C1 counterexample: on the document `domDisabledLink`, whose single
enumerated source is an already-disabled stylesheet link, the cycle (with
the action returning normally) ends with the link enabled — restore sets
`disabled = false` unconditionally — so the final state is not
byte-identical to the pre-cycle snapshot. -/
theorem isolate_cycle_cex :
    (exportAsPdf domDisabledLink none).2 ≠ domDisabledLink := by
  intro h
  have h2 := congrArg (fun s => s.sources) h
  simp [exportAsPdf, replaceAllStylesheets, restoreOriginalStylesheets,
    domDisabledLink, snapshotOf, suppress, restoreOne] at h2

/-- C1 amended: on every exit path (action returning or throwing) the
restoration step runs: afterwards the injected temporary sheet is
removed, every inline style's text content is byte-identical to the
pre-cycle snapshot, and every enumerated link is set to enabled —
unconditionally, so the full state is byte-identical to the pre-cycle
snapshot whenever no enumerated link was disabled before the cycle (an
initially-disabled link instead comes back enabled). -/
theorem isolate_restores (st : DomStyles) (actionErr : Option String) :
    (exportAsPdf st actionErr).2.tempInjected = false
    ∧ (exportAsPdf st actionErr).2.sources = st.sources.map reEnable
    ∧ ((∀ s ∈ st.sources, linkEnabled s = true) →
        (exportAsPdf st actionErr).2.sources = st.sources) := by
  refine ⟨rfl, ?_, ?_⟩
  · simpa [exportAsPdf, replaceAllStylesheets, restoreOriginalStylesheets]
      using zip_restore_eq_reEnable st.sources
  · intro h
    have h1 : st.sources.map reEnable = st.sources.map id := by
      apply List.map_congr_left
      intro s hs
      have := h s hs
      cases s with
      | link href d =>
        simp [linkEnabled] at this
        simp [reEnable, this]
      | style c => simp [reEnable]
    have h2 : (exportAsPdf st actionErr).2.sources = st.sources.map reEnable := by
      simpa [exportAsPdf, replaceAllStylesheets, restoreOriginalStylesheets]
        using zip_restore_eq_reEnable st.sources
    rw [h2, h1, List.map_id]

/-- Witness for `isolate_restores`: the document `domHealthy` (one enabled
link and one inline style), cycled with a throwing action, comes back
byte-identical to its pre-cycle state. -/
theorem isolate_restores_witness :
    (exportAsPdf domHealthy (some "oklch unsupported")).2.sources
      = domHealthy.sources := by
  exact (isolate_restores domHealthy (some "oklch unsupported")).2.2 (by decide)

/-- C2: when the capture action throws (any inner message), `exportAsPdf`
rejects with exactly the single wrapped failure `'Failed to export PDF'`
— the inner error does not appear in the result — and the final state is
exactly the one produced by running `restoreOriginalStylesheets` on the
isolated state before control returns: the temporary sheet is removed and
every enumerated source has been put through the restoration step. -/
theorem pdfExport_failure_wrapped (st : DomStyles) (msg : String) :
    (exportAsPdf st (some msg)).1 = Except.error "Failed to export PDF"
    ∧ (exportAsPdf st (some msg)).2
        = restoreOriginalStylesheets (st.sources.map snapshotOf)
            { sources := st.sources.map suppress, tempInjected := true }
    ∧ (exportAsPdf st (some msg)).2.tempInjected = false
    ∧ (exportAsPdf st (some msg)).2.sources = st.sources.map reEnable := by
  refine ⟨rfl, rfl, rfl, ?_⟩
  simpa [exportAsPdf, replaceAllStylesheets, restoreOriginalStylesheets]
    using zip_restore_eq_reEnable st.sources

end SelectorDoc
